import Mathlib

/-!
Shallow embedding of the Kiakart vendor-dashboard client
(`src/frontend/src/App.js`): the API-client wrapper (`apiCall`), the
session/state handlers (`handleAuth`, `handleLogout`, `fetchUserProfile`,
`handleProductSubmit`), the view router, and the pure view computations
(`Dashboard` totals, `OrdersView` filtering), together with theorems about
them.

JavaScript strings are embedded as Lean `String`, JS numbers appearing in
monetary sums as `ℚ`, and JS objects used as header maps as entry lists in
evaluation order, where a later entry overrides an earlier one (the
semantics of object-literal spread).
-/

namespace Kiakart

/-- Lookup in a JS object built from literal entries and spreads: the entry
list is in evaluation order and a later entry for the same key wins. -/
def objGet : List (String × String) → String → Option String
  | [], _ => none
  | kv :: rest, k =>
    match objGet rest k with
    | some v => some v
    | none => if kv.1 = k then some kv.2 else none

/-- JS single-character `String.prototype.split` on a character list:
`splitSeg sep l` is the list of maximal separator-free segments, with an
empty segment between adjacent separators and at the ends. -/
def splitSeg (sep : Char) : List Char → List (List Char)
  | [] => [[]]
  | c :: cs =>
    if c = sep then [] :: splitSeg sep cs
    else
      match splitSeg sep cs with
      | [] => [[c]]
      | seg :: segs => (c :: seg) :: segs

/-- `s.split(sep)` for a one-character separator, as in
`currentView.split('-')` in `App.js`. -/
def jsSplitOn (sep : Char) (s : String) : List String :=
  (splitSeg sep s.data).map String.mk

/-- JS truthiness of the `token` state: `null` and the empty string are
falsy, every other string is truthy (`if (token)`, `token && …`). -/
def tokenTruthy : Option String → Bool
  | none => false
  | some t => t != ""

/-- JS `a || b` for an optional string field `a`: the fallback is taken
when the field is absent or falsy (the empty string). -/
def jsOrFallback (field : Option String) (fallback : String) : String :=
  match field with
  | some s => if s = "" then fallback else s
  | none => fallback

/-! ## Data model (section 3 of the spec) -/

/-- A vendor profile as returned by the backend. -/
structure Vendor where
  id : String
  name : String
  business_name : String
  email : String
  phone : String
deriving Repr, DecidableEq

/-- A product record as held in the loaded `products` list. -/
structure Product where
  id : String
  name : String
  description : String
  price : ℚ
  quantity : Nat
  category : String
  images : List String
deriving Repr, DecidableEq

/-- An order record as held in the loaded `orders` list. -/
structure Order where
  id : String
  product_name : String
  product_image : Option String
  customer_name : String
  customer_email : String
  quantity : Nat
  total_price : ℚ
  status : String
  created_at : String
deriving Repr, DecidableEq

/-! ## API client wrapper (`apiCall`, App.js lines 23–41) -/

/-- `API_BASE_URL` with its default (`REACT_APP_BACKEND_URL` unset). -/
def API_BASE_URL : String := "http://localhost:8001"

/-- The body passed through `apiCall` to `fetch`: absent, a string the
caller produced with `JSON.stringify`, or a `FormData` multipart body as a
list of `(fieldName, value)` entries in append order. `apiCall` forwards
the body unchanged, so the constructed request holds it as given. -/
inductive Body where
  | empty
  | jsonString (payload : String)
  | multipart (fields : List (String × String))
deriving Repr, DecidableEq

/-- The `options` argument of `apiCall` (`fetch` defaults to method GET
when none is given; callers that pass no options contribute no headers and
no body). -/
structure ApiOptions where
  method : String
  headers : List (String × String)
  body : Body
deriving Repr, DecidableEq

/-- `apiCall` options for a bare call such as `apiCall('/api/products')`. -/
def defaultOptions : ApiOptions :=
  { method := "GET", headers := [], body := Body.empty }

/-- The header object `apiCall` builds:
`{'Content-Type': 'application/json', ...(token && {Authorization:
Bearer token}), ...options.headers}` — entries in evaluation order, later
entries overriding (see `objGet`). A falsy token (null or empty) spreads
nothing. -/
def buildHeaders (token : Option String) (optHeaders : List (String × String)) :
    List (String × String) :=
  [("Content-Type", "application/json")]
    ++ (match token with
        | some t => if t = "" then [] else [("Authorization", "Bearer " ++ t)]
        | none => [])
    ++ optHeaders

/-- The HTTP request `apiCall` hands to `fetch`. -/
structure Request where
  url : String
  method : String
  headers : List (String × String)
  body : Body
deriving Repr, DecidableEq

/-- The request `apiCall token url options` constructs before awaiting the
response: base URL prefixed, headers merged, method and body forwarded. -/
def apiCallRequest (token : Option String) (url : String) (options : ApiOptions) :
    Request :=
  { url := API_BASE_URL ++ url
    method := options.method
    headers := buildHeaders token options.headers
    body := options.body }

/-- Response handling in `apiCall`: on `response.ok` the parsed JSON body
`respJson` is returned; otherwise the error body's `detail` field (or the
generic fallback, via JS `||`) becomes the thrown error's message. -/
def apiCallComplete {α : Type} (respOk : Bool) (errDetail : Option String)
    (respJson : α) : Except String α :=
  if respOk then Except.ok respJson
  else Except.error (jsOrFallback errDetail "An error occurred")

/-! ## Product form submission (`handleProductSubmit`, lines 117–149) -/

/-- The `ProductForm` state object: every text/number input holds a string;
`images` holds the selected files (here: their names), in order. Key
insertion order is name, price, description, quantity, category, images. -/
structure ProductFormData where
  name : String
  price : String
  description : String
  quantity : String
  category : String
  images : List String
deriving Repr, DecidableEq

/-- The `FormData` built by `handleProductSubmit`: each non-`images` key is
appended with its value (in object-key order), then each file of `images`
is appended individually under the repeated field name `images`. -/
def productFormToMultipart (fd : ProductFormData) : List (String × String) :=
  [("name", fd.name), ("price", fd.price), ("description", fd.description),
   ("quantity", fd.quantity), ("category", fd.category)]
    ++ fd.images.map (fun img => ("images", img))

/-- The `headers` option `handleProductSubmit` passes to `apiCall`:
`token ? { Authorization: Bearer token } : {}`. -/
def productSubmitHeaders : Option String → List (String × String)
  | none => []
  | some t => if t = "" then [] else [("Authorization", "Bearer " ++ t)]

/-- The request `handleProductSubmit` issues: PUT `/api/products/${id}` on
edit, POST `/api/products` on create, multipart body, explicit headers.
A JS `null` id would be coerced to the text `"null"` by the template
literal. -/
def handleProductSubmitRequest (token : Option String) (isEdit : Bool)
    (productId : Option String) (fd : ProductFormData) : Request :=
  let url := if isEdit then
      "/api/products/" ++ (match productId with | some s => s | none => "null")
    else "/api/products"
  let method := if isEdit then "PUT" else "POST"
  apiCallRequest token url
    { method := method
      headers := productSubmitHeaders token
      body := Body.multipart (productFormToMultipart fd) }

/-! ## View router: the `edit-product-<id>` view (lines 211, 223–231) -/

/-- The view string set by the Edit button:
`setCurrentView('edit-product-' + product.id)`. -/
def editViewString (productId : String) : String := "edit-product-" ++ productId

/-- The id App extracts from the current view string:
`currentView.split('-')[2]` (out-of-range indexing would give JS
`undefined`). -/
def extractEditProductId (currentView : String) : String :=
  (jsSplitOn '-' currentView).getD 2 "undefined"

/-- The product the edit form is pre-filled from:
`products.find(p => p.id === currentView.split('-')[2])`. -/
def prefillProduct (products : List Product) (currentView : String) : Option Product :=
  products.find? (fun p => p.id == extractEditProductId currentView)

/-- The update request submitted from the edit view: `handleProductSubmit`
called with `isEdit = true` and `productId = currentView.split('-')[2]`. -/
def editSubmitRequest (token : Option String) (currentView : String)
    (fd : ProductFormData) : Request :=
  handleProductSubmitRequest token true (some (extractEditProductId currentView)) fd

/-- The create request submitted from the add-product view
(`handleProductSubmit(data)` with the defaults `isEdit = false`,
`productId = null`). -/
def createSubmitRequest (token : Option String) (fd : ProductFormData) : Request :=
  handleProductSubmitRequest token false none fd

/-! ## Session state (App's `useState` hooks plus `localStorage`) -/

/-- The App component's state hooks together with the persisted
`localStorage` entry under the key `token` (`storageToken`). -/
structure ClientState where
  currentView : String
  user : Option Vendor
  token : Option String
  products : List Product
  orders : List Order
  loading : Bool
  error : String
  success : String
  storageToken : Option String
deriving Repr, DecidableEq

/-- The state at mount: hooks at their initial values, `token` read from
`localStorage.getItem('token')`. -/
def initialClientState (storageToken : Option String) : ClientState :=
  { currentView := "login"
    user := none
    token := storageToken
    products := []
    orders := []
    loading := false
    error := ""
    success := ""
    storageToken := storageToken }

/-- The response body of a successful login/register call. -/
structure AuthResponse where
  access_token : String
  vendor : Vendor
deriving Repr, DecidableEq

/-- The state updates `handleAuth` performs when the API call succeeds:
store the token (state and `localStorage`), store the vendor, switch to
the dashboard, set the success banner; `setError('')` ran before the call
and `setLoading(false)` runs in `finally`. -/
def handleAuthSuccess (st : ClientState) (isLogin : Bool) (resp : AuthResponse) :
    ClientState :=
  { st with
    token := some resp.access_token
    storageToken := some resp.access_token
    user := some resp.vendor
    currentView := "dashboard"
    error := ""
    success := if isLogin then "Login successful!" else "Registration successful!"
    loading := false }

/-- `handleLogout` (lines 77–84): remove the persisted token, clear token
and user, return to the login view, empty both cached lists. -/
def handleLogout (st : ClientState) : ClientState :=
  { st with
    storageToken := none
    token := none
    user := none
    currentView := "login"
    products := []
    orders := [] }

/-- `fetchUserProfile` (lines 43–53): on success store the profile and
show the dashboard; on any error remove the persisted token and null the
token state (the view and user states are left as they were). -/
def fetchUserProfileStep (st : ClientState) (result : Except String Vendor) :
    ClientState :=
  match result with
  | Except.ok profile => { st with user := some profile, currentView := "dashboard" }
  | Except.error _ => { st with storageToken := none, token := none }

/-- Startup: the mount effect runs `fetchUserProfile()` only when the
token read from storage is truthy (`if (token) …`); `profileResult` is the
outcome of that fetch when it runs. -/
def startup (storageToken : Option String) (profileResult : Except String Vendor) :
    ClientState :=
  let st := initialClientState storageToken
  if tokenTruthy st.token then fetchUserProfileStep st profileResult else st

/-! ## Rendering (App's return value, lines 172–238) -/

/-- Which top-level screen App renders. -/
inductive View where
  | authScreen
  | dashboard
  | products
  | addProduct
  | editProduct (id : String)
  | orders
  | blank
deriving Repr, DecidableEq

/-- App's render: a falsy token shows the `AuthScreen`; otherwise the
`currentView` string selects the screen, `edit-product-` prefixes carrying
the extracted product id. -/
def render (st : ClientState) : View :=
  if tokenTruthy st.token = false then View.authScreen
  else if st.currentView = "dashboard" then View.dashboard
  else if st.currentView = "products" then View.products
  else if st.currentView = "add-product" then View.addProduct
  else if String.startsWith st.currentView "edit-product-" then
    View.editProduct (extractEditProductId st.currentView)
  else if st.currentView = "orders" then View.orders
  else View.blank

/-- The Navigation greeting: `Welcome, {user?.name}` (JSX renders the
`undefined` of a missing user as empty text). -/
def welcomeText (st : ClientState) : String :=
  "Welcome, " ++ (match st.user with | some u => u.name | none => "")

/-! ## Dashboard totals (lines 459–463) -/

/-- `products.length` shown as Total Products. -/
def totalProducts (products : List Product) : Nat := products.length

/-- `orders.length` shown as Total Orders. -/
def totalOrders (orders : List Order) : Nat := orders.length

/-- `orders.reduce((sum, order) => sum + order.total_price, 0)` shown as
Total Revenue. -/
def totalRevenue (orders : List Order) : ℚ :=
  orders.foldl (fun sum o => sum + o.total_price) 0

/-! ## Orders view filtering (lines 760–767) -/

/-- `filter === 'all' ? orders : orders.filter(o => o.status === filter)`. -/
def filteredOrders (filter : String) (orders : List Order) : List Order :=
  if filter = "all" then orders else orders.filter (fun o => o.status == filter)

/-- The `OrdersView` component's state: the loaded list it received as a
prop and its local `filter` hook. -/
structure OrdersViewState where
  orders : List Order
  filter : String
deriving Repr, DecidableEq

/-- A filter change (`onChange` of the status select): only the local
`filter` state changes; the list of HTTP requests issued by the handler is
empty — `setFilter` is the sole call, so no re-fetch happens. -/
def changeFilter (st : OrdersViewState) (newFilter : String) :
    OrdersViewState × List Request :=
  ({ st with filter := newFilter }, [])

/-! ## Identifier scope of `ProductsView` (lines 553–611)

JavaScript resolves a free identifier against the lexical scope chain:
the component's parameters and locals, then the module's top-level
bindings. A name found nowhere raises a `ReferenceError` when the handler
runs. -/

/-- The module-level bindings of `App.js` visible inside every component:
the two imports, `API_BASE_URL`, and the component constants. -/
def moduleTopLevelNames : List String :=
  ["React", "useState", "useEffect", "API_BASE_URL", "App", "AuthScreen",
   "Navigation", "Dashboard", "ProductsView", "ProductForm", "OrdersView"]

/-- `ProductsView`'s destructured props — its only parameters; the
component body declares no further bindings before the Add Product
button's handler. -/
def productsViewParams : List String := ["products", "onDelete", "onEdit"]

/-- The full scope chain of the Add Product button's `onClick` arrow
function inside `ProductsView`. -/
def productsViewScope : List String := productsViewParams ++ moduleTopLevelNames

/-- For contrast, `Navigation` receives `setCurrentView` as a prop, so the
same resolution succeeds there. -/
def navigationParams : List String :=
  ["user", "currentView", "setCurrentView", "onLogout"]

/-- Outcome of running a click handler whose body is
`setCurrentView('add-product')`. -/
inductive HandlerOutcome where
  | viewSet (view : String)
  | referenceError (name : String)
deriving Repr, DecidableEq

/-- Run `() => setCurrentView('add-product')` in a given scope chain: the
call succeeds only if `setCurrentView` resolves; otherwise the handler
throws a `ReferenceError` for that name. -/
def runAddProductClick (scope : List String) : HandlerOutcome :=
  if scope.contains "setCurrentView" then HandlerOutcome.viewSet "add-product"
  else HandlerOutcome.referenceError "setCurrentView"

/-! ## Sample data used by witnesses and counterexamples -/

/-- A concrete vendor, as in the spec's login scenario (`name: "A"`). -/
def sampleVendor : Vendor :=
  { id := "v1", name := "A", business_name := "B", email := "a@b.com", phone := "1" }

/-- A concrete product-form payload. -/
def sampleFd : ProductFormData :=
  { name := "Shoes", price := "19.99", description := "Leather",
    quantity := "5", category := "Clothing", images := ["img1.png"] }

/-- A concrete product with a hyphen-free id. -/
def sampleProduct : Product :=
  { id := "p1", name := "Shoes", description := "Leather", price := 20,
    quantity := 5, category := "Clothing", images := [] }

/-- A concrete pending order. -/
def sampleOrder : Order :=
  { id := "o1", product_name := "Shoes", product_image := none,
    customer_name := "C", customer_email := "c@d.com", quantity := 1,
    total_price := 20, status := "pending", created_at := "2024-01-01" }

/-- A concrete shipped order. -/
def sampleOrderShipped : Order :=
  { sampleOrder with id := "o2", status := "shipped" }

/-! ## Helper lemmas -/

/-- Lookup in a concatenation of entry lists: the later list wins. -/
theorem objGet_append (a b : List (String × String)) (k : String) :
    objGet (a ++ b) k =
      match objGet b k with
      | some v => some v
      | none => objGet a k := by
  induction a with
  | nil => cases h : objGet b k <;> simp [objGet, h]
  | cons kv rest ih =>
    simp only [List.cons_append, objGet, List.append_eq]
    rw [ih]
    cases h : objGet b k <;> cases h2 : objGet rest k <;> simp [h, h2]

/-- A separator-free character list splits into the single segment
consisting of itself. -/
theorem splitSeg_not_mem (sep : Char) (l : List Char) (h : sep ∉ l) :
    splitSeg sep l = [l] := by
  induction l with
  | nil => rfl
  | cons c cs ih =>
    simp only [List.mem_cons, not_or] at h
    have hc : ¬ c = sep := fun hc => h.1 hc.symm
    simp [splitSeg, hc, ih h.2]

/-- Splitting past a separator-free prefix followed by one separator
peels off that prefix as the first segment. -/
theorem splitSeg_append (sep : Char) (l₁ l₂ : List Char) (h : sep ∉ l₁) :
    splitSeg sep (l₁ ++ sep :: l₂) = l₁ :: splitSeg sep l₂ := by
  induction l₁ with
  | nil => simp [splitSeg]
  | cons c cs ih =>
    simp only [List.mem_cons, not_or] at h
    have hc : ¬ c = sep := fun hc => h.1 hc.symm
    simp [splitSeg, hc, ih h.2]

/-- Round trip of the view-string encoding: for a hyphen-free product id,
`currentView.split('-')[2]` recovers exactly the id embedded by
`'edit-product-' + id`. -/
theorem extractEditProductId_editViewString (id : String) (h : '-' ∉ id.data) :
    extractEditProductId (editViewString id) = id := by
  cases id with
  | mk data =>
    have hdata : (editViewString (String.mk data)).data
        = ['e', 'd', 'i', 't'] ++ '-' ::
            (['p', 'r', 'o', 'd', 'u', 'c', 't'] ++ '-' :: data) := rfl
    simp only [extractEditProductId, jsSplitOn, hdata]
    rw [splitSeg_append '-' _ _ (by decide),
        splitSeg_append '-' _ _ (by decide),
        splitSeg_not_mem '-' data h]
    rfl

/-- Folding addition of `total_price` over a list starting from `a` yields
`a` plus the sum of the mapped prices. -/
theorem foldl_add_total_price (a : ℚ) (l : List Order) :
    l.foldl (fun sum o => sum + o.total_price) a
      = a + (l.map (fun o => o.total_price)).sum := by
  induction l generalizing a with
  | nil => simp
  | cons o rest ih =>
    rw [List.foldl_cons, ih]
    simp [List.sum_cons]
    ring

/-- Unfolding `startup` when the stored token is truthy: the mount effect
runs the profile fetch. -/
theorem startup_fetch (tok : String) (r : Except String Vendor)
    (h : tokenTruthy (some tok) = true) :
    startup (some tok) r = fetchUserProfileStep (initialClientState (some tok)) r := by
  simp [startup, initialClientState, h]

example : extractEditProductId (editViewString "abc") = "abc" := by decide

example : extractEditProductId (editViewString "ab-cd") = "ab" := by decide

example : objGet (buildHeaders (some "t")
    [("Authorization", "Bearer t")]) "Content-Type" = some "application/json" := by
  decide

/-! ## Claim theorems -/

/-- C1 (amended): for every product id containing no hyphen, submitting
the edit form opened via the view string `edit-product-<id>` issues the
update with method PUT (distinct from create's POST) to
`/api/products/{id}` carrying exactly that id, and the form is pre-filled
from the product in the loaded list whose id equals that id; the id App
works with is `currentView.split('-')[2]`, which round-trips exactly for
hyphen-free ids. -/
theorem c1_edit_update_targets_id (products : List Product)
    (token : Option String) (fd : ProductFormData) (id : String)
    (h : '-' ∉ id.data) :
    (editSubmitRequest token (editViewString id) fd).method = "PUT"
    ∧ (createSubmitRequest token fd).method = "POST"
    ∧ (editSubmitRequest token (editViewString id) fd).url
        = API_BASE_URL ++ ("/api/products/" ++ id)
    ∧ prefillProduct products (editViewString id)
        = products.find? (fun p => p.id == id)
    ∧ extractEditProductId (editViewString id) = id := by
  have he := extractEditProductId_editViewString id h
  refine ⟨rfl, rfl, ?_, ?_, he⟩
  · simp [editSubmitRequest, handleProductSubmitRequest, apiCallRequest, he]
  · simp [prefillProduct, he]

/-- C1 witness: the amended claim applied to the concrete id `p1`. -/
theorem c1_edit_update_targets_id_witness :
    (editSubmitRequest (some "t") (editViewString "p1") sampleFd).method = "PUT"
    ∧ (createSubmitRequest (some "t") sampleFd).method = "POST"
    ∧ (editSubmitRequest (some "t") (editViewString "p1") sampleFd).url
        = API_BASE_URL ++ ("/api/products/" ++ "p1")
    ∧ prefillProduct [sampleProduct] (editViewString "p1")
        = [sampleProduct].find? (fun p => p.id == "p1")
    ∧ extractEditProductId (editViewString "p1") = "p1" :=
  c1_edit_update_targets_id [sampleProduct] (some "t") sampleFd "p1" (by decide)

/-- C1 counterexample: for the hyphenated product id `ab-cd`,
`currentView.split('-')[2]` extracts only `ab`, so the update goes to
`/api/products/ab`, not to the path carrying the full id — the claim as
stated fails at this id. -/
theorem c1_counterexample :
    extractEditProductId (editViewString "ab-cd") = "ab"
    ∧ ("ab" : String) ≠ "ab-cd"
    ∧ (editSubmitRequest (some "t") (editViewString "ab-cd") sampleFd).url
        = "http://localhost:8001/api/products/ab" := by
  decide

/-- C2: `handleProductSubmit` forwards the pre-built multipart body with
no JSON serialization, but the request's merged headers still carry the
default `Content-Type: application/json`, because the caller's override
object contains only the `Authorization` entry — contradicting the claim
that no JSON content type is applied to a multipart body. -/
theorem c2_multipart_request_keeps_json_content_type :
    (handleProductSubmitRequest (some "t") false none sampleFd).body
        = Body.multipart (productFormToMultipart sampleFd)
    ∧ objGet (handleProductSubmitRequest (some "t") false none sampleFd).headers
        "Content-Type" = some "application/json"
    ∧ objGet (handleProductSubmitRequest (some "t") true (some "p1") sampleFd).headers
        "Content-Type" = some "application/json" := by
  decide

/-- C3: the headers `apiCall` constructs contain
`Authorization: Bearer <token>` exactly when a (truthy) token is held:
with a held token and caller headers not naming `Authorization` the bearer
entry is present; with no token it is absent; and for the one call site
that does pass its own headers (`handleProductSubmit`), the resulting
lookup still yields the bearer entry exactly when the token is held. -/
theorem c3_bearer_token_header (t : String) (ht : t ≠ "")
    (extra : List (String × String))
    (hextra : objGet extra "Authorization" = none) :
    objGet (buildHeaders (some t) extra) "Authorization" = some ("Bearer " ++ t)
    ∧ objGet (buildHeaders none extra) "Authorization" = none
    ∧ (∀ tok : Option String,
        objGet (buildHeaders tok (productSubmitHeaders tok)) "Authorization"
          = match tok with
            | some s => if s = "" then none else some ("Bearer " ++ s)
            | none => none) := by
  refine ⟨?_, ?_, ?_⟩
  · simp only [buildHeaders, if_neg ht]
    rw [objGet_append, hextra]
    simp [objGet]
  · simp only [buildHeaders]
    rw [objGet_append, hextra]
    simp [objGet]
  · intro tok
    cases tok with
    | none => decide
    | some s =>
      by_cases hs : s = ""
      · subst hs
        decide
      · simp only [buildHeaders, productSubmitHeaders, if_neg hs]
        rw [objGet_append]
        simp [objGet]

/-- C3 witness: the bearer-header property at the concrete token `t1`,
empty caller headers, and the product-submit call site. -/
theorem c3_bearer_token_header_witness :
    objGet (buildHeaders (some "t1") []) "Authorization" = some ("Bearer " ++ "t1")
    ∧ objGet (buildHeaders none []) "Authorization" = none
    ∧ objGet (buildHeaders (some "t1") (productSubmitHeaders (some "t1")))
        "Authorization" = some ("Bearer " ++ "t1") := by
  have h := c3_bearer_token_header "t1" (by decide) [] rfl
  exact ⟨h.1, h.2.1, h.2.2 (some "t1")⟩

/-- C4 (amended): on a non-2xx response `apiCall` throws an error whose
message is the body's `detail` field when that field is present and
non-empty, and the generic `An error occurred` when the field is absent or
the empty string (JS `||` treats the empty string as falsy); on a 2xx
response the parsed JSON is returned and no error is raised. -/
theorem c4_error_message {α : Type} (respJson : α) (errDetail : Option String)
    (d : String) (hd : d ≠ "") :
    apiCallComplete true errDetail respJson = Except.ok respJson
    ∧ apiCallComplete false (some d) respJson = (Except.error d : Except String α)
    ∧ apiCallComplete false none respJson
        = (Except.error "An error occurred" : Except String α)
    ∧ apiCallComplete false (some "") respJson
        = (Except.error "An error occurred" : Except String α) := by
  refine ⟨rfl, ?_, rfl, rfl⟩
  simp [apiCallComplete, jsOrFallback, hd]

/-- C4 witness: the amended claim at the concrete detail `Not found`. -/
theorem c4_error_message_witness :
    apiCallComplete true none (0 : Nat) = Except.ok 0
    ∧ apiCallComplete false (some "Not found") (0 : Nat) = Except.error "Not found"
    ∧ apiCallComplete false none (0 : Nat) = Except.error "An error occurred"
    ∧ apiCallComplete false (some "") (0 : Nat) = Except.error "An error occurred" :=
  c4_error_message (0 : Nat) none "Not found" (by decide)

/-- C4 counterexample: a non-2xx response whose body carries the (empty)
message field `detail: ""` produces the generic message, not the
server-supplied field — the claim as stated fails there. -/
theorem c4_counterexample :
    apiCallComplete false (some "") (0 : Nat) = Except.error "An error occurred"
    ∧ ("An error occurred" : String) ≠ "" :=
  ⟨rfl, by decide⟩

/-- C5: filtering the loaded orders by a status yields exactly the orders
whose status equals it — membership is characterized by status equality
and the result is a sublist of the loaded list, hence in the original
order; filtering by `all` returns the list unmodified; and a filter change
only updates the local filter state and issues no request. -/
theorem c5_orders_filter (orders : List Order) (s : String) (hs : s ≠ "all")
    (st : OrdersViewState) :
    filteredOrders "all" orders = orders
    ∧ (∀ o : Order, o ∈ filteredOrders s orders ↔ o ∈ orders ∧ o.status = s)
    ∧ List.Sublist (filteredOrders s orders) orders
    ∧ changeFilter st s = ({ orders := st.orders, filter := s }, []) := by
  refine ⟨rfl, ?_, ?_, rfl⟩
  · intro o
    simp [filteredOrders, hs, List.mem_filter]
  · simp only [filteredOrders, if_neg hs]
    exact List.filter_sublist orders

/-- C5 witness: the filter property on a concrete two-order list with the
status `pending`. -/
theorem c5_orders_filter_witness :
    filteredOrders "all" [sampleOrder, sampleOrderShipped]
        = [sampleOrder, sampleOrderShipped]
    ∧ (sampleOrder ∈ filteredOrders "pending" [sampleOrder, sampleOrderShipped]
        ↔ sampleOrder ∈ [sampleOrder, sampleOrderShipped]
          ∧ sampleOrder.status = "pending")
    ∧ List.Sublist (filteredOrders "pending" [sampleOrder, sampleOrderShipped])
        [sampleOrder, sampleOrderShipped]
    ∧ changeFilter { orders := [sampleOrder, sampleOrderShipped], filter := "all" }
        "pending"
        = ({ orders := [sampleOrder, sampleOrderShipped], filter := "pending" }, []) := by
  have h := c5_orders_filter [sampleOrder, sampleOrderShipped] "pending"
    (by decide) { orders := [sampleOrder, sampleOrderShipped], filter := "all" }
  exact ⟨h.1, h.2.1 sampleOrder, h.2.2.1, h.2.2.2⟩

/-- C6: the Dashboard's total revenue equals the sum of `total_price` over
the loaded orders, the total-products figure is the product list's length,
and the total-orders figure is the order list's length. -/
theorem c6_dashboard_totals (products : List Product) (orders : List Order) :
    totalRevenue orders = (orders.map (fun o => o.total_price)).sum
    ∧ totalProducts products = products.length
    ∧ totalOrders orders = orders.length := by
  refine ⟨?_, rfl, rfl⟩
  simpa using foldl_add_total_price 0 orders

/-- C7: when a login or register call succeeds, `handleAuth` stores the
returned token in state and in durable local storage, stores the returned
vendor profile, and switches the current view to the dashboard; in the
spec's scenario (token `t1`, vendor named `A`) the rendered screen is the
dashboard and the navigation greeting reads `Welcome, A`. -/
theorem c7_auth_success_transition (st : ClientState) (isLogin : Bool)
    (resp : AuthResponse) :
    ((handleAuthSuccess st isLogin resp).token = some resp.access_token
      ∧ (handleAuthSuccess st isLogin resp).storageToken = some resp.access_token
      ∧ (handleAuthSuccess st isLogin resp).user = some resp.vendor
      ∧ (handleAuthSuccess st isLogin resp).currentView = "dashboard")
    ∧ (render (handleAuthSuccess (initialClientState none) true
          { access_token := "t1", vendor := sampleVendor }) = View.dashboard
      ∧ welcomeText (handleAuthSuccess (initialClientState none) true
          { access_token := "t1", vendor := sampleVendor }) = "Welcome, A") := by
  exact ⟨⟨rfl, rfl, rfl, rfl⟩, by decide, by decide⟩

/-- C8: `handleLogout` clears the token and its persisted copy, clears the
vendor profile, empties the cached product and order lists, and returns to
the anonymous login view (the auth screen renders). -/
theorem c8_logout_clears (st : ClientState) :
    (handleLogout st).token = none
    ∧ (handleLogout st).storageToken = none
    ∧ (handleLogout st).user = none
    ∧ (handleLogout st).products = []
    ∧ (handleLogout st).orders = []
    ∧ (handleLogout st).currentView = "login"
    ∧ render (handleLogout st) = View.authScreen := by
  exact ⟨rfl, rfl, rfl, rfl, rfl, rfl, rfl⟩

/-- C9: at startup with a persisted (truthy) token, a failing profile
fetch nulls the token, removes the persisted copy, and the auth screen
renders (anonymous); a successful fetch stores the fetched profile, keeps
the token, and the dashboard view renders. -/
theorem c9_startup_profile (t : String) (ht : t ≠ "") (profile : Vendor)
    (e : String) :
    (startup (some t) (Except.error e)).token = none
    ∧ (startup (some t) (Except.error e)).storageToken = none
    ∧ render (startup (some t) (Except.error e)) = View.authScreen
    ∧ (startup (some t) (Except.ok profile)).user = some profile
    ∧ (startup (some t) (Except.ok profile)).token = some t
    ∧ (startup (some t) (Except.ok profile)).currentView = "dashboard"
    ∧ render (startup (some t) (Except.ok profile)) = View.dashboard := by
  have htok : tokenTruthy (some t) = true := by simp [tokenTruthy, ht]
  rw [startup_fetch t (Except.error e) htok, startup_fetch t (Except.ok profile) htok]
  refine ⟨rfl, rfl, rfl, rfl, rfl, rfl, ?_⟩
  simp [render, fetchUserProfileStep, initialClientState, tokenTruthy, ht]

/-- C9 witness: the startup property at the concrete persisted token `t1`
with a 401-style failure and with a successful fetch of the sample
vendor. -/
theorem c9_startup_profile_witness :
    (startup (some "t1") (Except.error "HTTP 401")).token = none
    ∧ (startup (some "t1") (Except.error "HTTP 401")).storageToken = none
    ∧ render (startup (some "t1") (Except.error "HTTP 401")) = View.authScreen
    ∧ (startup (some "t1") (Except.ok sampleVendor)).user = some sampleVendor
    ∧ (startup (some "t1") (Except.ok sampleVendor)).token = some "t1"
    ∧ (startup (some "t1") (Except.ok sampleVendor)).currentView = "dashboard"
    ∧ render (startup (some "t1") (Except.ok sampleVendor)) = View.dashboard :=
  c9_startup_profile "t1" (by decide) sampleVendor "HTTP 401"

/-- C10: `setCurrentView` is resolvable neither among `ProductsView`'s
props nor among the module's top-level bindings, so the Add Product
button's click handler raises a `ReferenceError` instead of switching the
view to `add-product`. -/
theorem c10_add_product_click_reference_error :
    productsViewScope.contains "setCurrentView" = false
    ∧ runAddProductClick productsViewScope
        = HandlerOutcome.referenceError "setCurrentView" := by
  decide

end Kiakart
